import Mathlib

/-!
Verification of the wikijs-secure-assets decision core.

The development shallowly embeds the two auth services of the repository:

* `asset-auth-service.js` (the production DB-backed service): routes
  `/auth/:groupName/:assetPath` and `/auth/:groupName`, JWT verification with
  `algorithms: ['RS256']`, and a PostgreSQL membership query joining
  `users`, `userGroups` and `groups`.
* `mock-auth-service.js` (generated by `tests/setup-test-environment.sh`, the
  inline-claims deployment mode): a regex route matching
  `/auth/{group}/{anything}` and `jwt.verify` against a shared string secret
  with no algorithm list, reading the `groups` claim from the verified token.

The `jsonwebtoken` library behavior both services rely on is embedded at the
level of its documented semantics: header algorithm filtering against the
allowed-algorithm list (for a plain string secret and no explicit list, the
library default is the HMAC family HS256/HS384/HS512), signature check, then
expiry check; errors carry the JS `err.name` used by the production catch
blocks.

The nginx edge configuration shipped by `setup_secure_assets.sh` is embedded
as `nginxServe` (auth_request pass/deny semantics plus the uniform
`@auth_error` denial page).
-/

namespace WikiSecureAssets

/-- The decoded JWT payload, as the services read it.  `id` is the Wiki.js
user id (absent on tokens that carry no `id` claim); `groups` is the inline
claims list used by the mock service (a token without a `groups` claim is not
modelled separately because no claim depends on it); `exp` is the optional
expiry in epoch seconds. -/
structure Claims where
  id : Option Nat
  email : String
  groups : List String
  exp : Option Nat
deriving DecidableEq, Repr

/-- A presented bearer token, abstracting the cryptographic content:
`wellFormed` is structural validity (three decodable dot-separated segments),
`alg` is the header's declared algorithm, `sigValid` states that the
signature verifies under the key the verifying service is configured with
(the Wiki.js RSA public key for the production service, the shared test
secret for the mock), and `payload` are the claims. -/
structure Token where
  wellFormed : Bool
  alg : String
  sigValid : Bool
  payload : Claims
deriving DecidableEq, Repr

/-- Failure modes of `jsonwebtoken`'s `verify`, in the order the library
checks them. -/
inductive VerifyError where
  | malformed
  | invalidAlgorithm
  | invalidSignature
  | expired
deriving DecidableEq, Repr

/-- The JS `err.name` of each verification error: expiry raises
`TokenExpiredError`, every other verification failure raises
`JsonWebTokenError`. -/
def VerifyError.jsName : VerifyError → String
  | .expired => "TokenExpiredError"
  | _ => "JsonWebTokenError"

/-- `jsonwebtoken`'s default allowed algorithms when `verify` is given a
plain string secret and no `algorithms` option (the mock service's call). -/
def hsDefaultAlgs : List String := ["HS256", "HS384", "HS512"]

/-- Expiry check of `jsonwebtoken`: a token is expired iff it carries an
`exp` claim and the clock timestamp has reached it. -/
def isExpired (exp : Option Nat) (now : Nat) : Bool :=
  match exp with
  | none => false
  | some e => e ≤ now

/-- `jwt.verify(token, key, \x7b algorithms \x7d)`: structural check, header
algorithm against the allowed list, signature, then expiry. -/
def jwtVerify (t : Token) (allowedAlgs : List String) (now : Nat) :
    Except VerifyError Claims :=
  if ¬ t.wellFormed then .error .malformed
  else if ¬ allowedAlgs.contains t.alg then .error .invalidAlgorithm
  else if ¬ t.sigValid then .error .invalidSignature
  else if isExpired t.payload.exp now then .error .expired
  else .ok t.payload

/-- An HTTP response of a service: status code and body. -/
structure Response where
  status : Nat
  body : String
deriving DecidableEq, Repr

/-- The identity-store rows the production query reads: `users` holds
`(id, email)` pairs and `membership` holds the flattened
`"userGroups" ⋈ groups` rows as `(userId, group name)` pairs. -/
structure DBState where
  users : List (Nat × String)
  membership : List (Nat × String)
deriving DecidableEq, Repr

/-- The identity store as the service sees it: reachable with some contents,
or failing (connection error / timeout, which `pool.query` raises and the
service's catch-all converts to a 500). -/
inductive Resolver where
  | available : DBState → Resolver
  | unavailable : Resolver
deriving DecidableEq, Repr

/-- The production membership query:
`SELECT u.id, u.email, g.name FROM users u JOIN "userGroups" ug ... JOIN
groups g ... WHERE u.id = $1 AND (g.name = $2 OR g.name = 'Administrators')`.
Each returned row is `(user_email, group_name)`. -/
def queryGroupRows (db : DBState) (userId : Nat) (groupName : String) :
    List (String × String) :=
  (db.users.filter fun u => u.1 == userId).flatMap fun u =>
    (db.membership.filter fun m =>
      m.1 == u.1 && (m.2 == groupName || m.2 == "Administrators")).map
      fun m => (u.2, m.2)

/-- The follow-up existence query `SELECT u.email FROM users u WHERE
u.id = $1`. -/
def queryUserRows (db : DBState) (userId : Nat) : List String :=
  (db.users.filter fun u => u.1 == userId).map fun u => u.2

/-- `authenticateRequest` of `asset-auth-service.js`: the shared handler of
both `/auth` routes.  `cookieJwt` is the `jwt` cookie (`none` when absent),
`now` the clock, `db` the identity store.  The JS falsy test
`!decoded.id` treats both an absent and a zero `id` as invalid payload.
The asset path parameter is read only for logging and does not occur in the
decision. -/
def authenticateRequest (groupName assetPath : String) (cookieJwt : Option Token)
    (now : Nat) (db : Resolver) : Response :=
  match cookieJwt with
  | none => ⟨403, "No JWT token"⟩
  | some t =>
    match jwtVerify t ["RS256"] now with
    | .error e =>
      if e.jsName = "JsonWebTokenError" then ⟨403, "Invalid JWT signature"⟩
      else if e.jsName = "TokenExpiredError" then ⟨403, "JWT expired"⟩
      else ⟨500, "Server error"⟩
    | .ok decoded =>
      match decoded.id with
      | none => ⟨403, "Invalid JWT payload"⟩
      | some uid =>
        if uid = 0 then ⟨403, "Invalid JWT payload"⟩
        else
          match db with
          | .unavailable => ⟨500, "Server error"⟩
          | .available s =>
            if queryGroupRows s uid groupName ≠ [] then ⟨200, "OK"⟩
            else if queryUserRows s uid ≠ [] then
              ⟨403, "Not in group \"" ++ groupName ++ "\" or Administrators"⟩
            else ⟨403, "User not found"⟩

/-- Splits a character list on the `/` separator (auxiliary for
`pathSegs`). -/
def splitSegsAux : List Char → List (List Char)
  | [] => [[]]
  | c :: rest =>
    match splitSegsAux rest with
    | s :: ss => if c = '/' then [] :: s :: ss else (c :: s) :: ss
    | [] => [[c]]

/-- The `/`-separated segments of a request path (the segmentation both
services' route patterns are phrased over). -/
def pathSegs (path : String) : List String :=
  (splitSegsAux path.toList).map fun cs => String.mk cs

/-- Express route matching of the production service.  Route
`/auth/:groupName/:assetPath` compiles to the pattern
`/auth/([^/]+?)/([^/]+?)/?` anchored at both ends (each named parameter
matches exactly one non-empty slash-free segment; non-strict matching allows
one trailing slash), and route `/auth/:groupName` to `/auth/([^/]+?)/?`; a
path matching neither falls through to Express's 404. -/
def routeMatch (path : String) : Option (String × String) :=
  match pathSegs path with
  | ["", "auth", g] => if g = "" then none else some (g, "")
  | ["", "auth", g, a] =>
    if g = "" then none
    else if a = "" then some (g, "")
    else some (g, a)
  | _ => none

/-- The production service endpoint: route dispatch then the shared handler;
an unmatched path gets Express's default 404 page. -/
def assetAuthService (path : String) (cookieJwt : Option Token) (now : Nat)
    (db : Resolver) : Response :=
  match routeMatch path with
  | some (g, a) => authenticateRequest g a cookieJwt now db
  | none => ⟨404, "Cannot GET " ++ path⟩

/-- Route matching of the mock service's single regex route
`/auth/([^/]+)/(.+)` anchored at both ends: the first capture is one
non-empty slash-free segment, the second is any non-empty remainder,
slashes included. -/
def mockRouteMatch (path : String) : Option (String × String) :=
  match pathSegs path with
  | "" :: "auth" :: g :: rest =>
    if g = "" then none
    else
      let a := String.intercalate "/" rest
      if rest = [] ∨ a = "" then none else some (g, a)
  | _ => none

/-- The request handler of `mock-auth-service.js`: verify the `jwt` cookie
against the shared string secret (library-default HMAC algorithms), then
allow iff the token's `groups` claim contains `Administrators` or the
required group; any verification error is caught as a single 403. -/
def mockHandleAuth (groupName assetPath : String) (cookieJwt : Option Token)
    (now : Nat) : Response :=
  match cookieJwt with
  | none => ⟨403, "No JWT"⟩
  | some t =>
    match jwtVerify t hsDefaultAlgs now with
    | .error _ => ⟨403, "Invalid JWT"⟩
    | .ok decoded =>
      if decoded.groups.contains "Administrators"
          || decoded.groups.contains groupName then ⟨200, "OK"⟩
      else ⟨403, "Access denied"⟩

/-- The mock service endpoint: regex route dispatch then the handler. -/
def mockAuthService (path : String) (cookieJwt : Option Token) (now : Nat) :
    Response :=
  match mockRouteMatch path with
  | some (g, a) => mockHandleAuth g a cookieJwt now
  | none => ⟨404, "Cannot GET " ++ path⟩

/-- The uniform denial page of the production nginx configuration installed
by `setup_secure_assets.sh` (`location @auth_error`). -/
def edgeDenialBody : String :=
  "Access denied: Check Wiki.js login and group membership"

/-- The nginx edge around the auth service, per the shipped configuration:
`auth_request` lets a 2xx subrequest status serve the file, maps a 403
through `error_page 403 = @auth_error` to the uniform denial page, and
treats any other subrequest status as an internal error (500). -/
def nginxServe (authStatus : Nat) (fileContent : String) : Response :=
  if 200 ≤ authStatus ∧ authStatus < 300 then ⟨200, fileContent⟩
  else if authStatus = 403 then ⟨403, edgeDenialBody⟩
  else ⟨500, "500 Internal Server Error"⟩

/-! ### Concrete fixtures used by witnesses and counterexamples -/

/-- A token that verifies for the production service: well-formed, RS256,
valid signature, user id 7, expiring at epoch second 3600. -/
def memberTok : Token :=
  ⟨true, "RS256", true, ⟨some 7, "manager@test.com", ["managers"], some 3600⟩⟩

/-- A tampered token: well-formed RS256 structure but an invalid signature,
claiming Administrators membership inline. -/
def tamperedTok : Token :=
  ⟨true, "RS256", false, ⟨some 7, "admin@fake.com", ["Administrators"], some 3600⟩⟩

/-- An identity store where user 7 is in exactly the `managers` group. -/
def managersDB : DBState := ⟨[(7, "manager@test.com")], [(7, "managers")]⟩

/-- An identity store where user 7 is in the `Administrators` group. -/
def adminDB : DBState := ⟨[(7, "admin@test.com")], [(7, "Administrators")]⟩

/-- An inline-claims token for the mock service: HS256, valid MAC,
`managers` group claim. -/
def hsMemberTok : Token :=
  ⟨true, "HS256", true, ⟨none, "manager@test.com", ["managers"], some 3600⟩⟩

/-- An inline-claims token declaring HS384 with a MAC that verifies under
the shared test secret. -/
def hs384Tok : Token :=
  ⟨true, "HS384", true, ⟨none, "manager@test.com", ["managers"], some 3600⟩⟩

/-- An inline-claims token for the nested-path scenario: member of `dev`. -/
def nestedDevTok : Token :=
  ⟨true, "HS256", true, ⟨none, "dev@test.com", ["dev"], some 3600⟩⟩

/-! ### Claims -/

/-- Claim C1 (confirmed): fail-closed — a request whose credential is
missing (no `jwt` cookie) or fails verification (malformed, wrong
algorithm, bad signature, or expired, i.e. any `jwtVerify` error) is
decided 403, never 200, whatever groups the unverifiable token claims and
whatever the identity store holds; this holds for the production handler
and for the mock handler. -/
theorem C1_fail_closed (g a : String) (t : Token) (now : Nat) (db : Resolver)
    (e : VerifyError) :
    (authenticateRequest g a none now db = ⟨403, "No JWT token"⟩) ∧
    (jwtVerify t ["RS256"] now = .error e →
      (authenticateRequest g a (some t) now db).status = 403) ∧
    (mockHandleAuth g a none now = ⟨403, "No JWT"⟩) ∧
    (jwtVerify t hsDefaultAlgs now = .error e →
      (mockHandleAuth g a (some t) now).status = 403) := by
  refine ⟨rfl, ?_, rfl, ?_⟩
  · intro h
    simp only [authenticateRequest, h]
    cases e <;> simp [VerifyError.jsName]
  · intro h
    simp only [mockHandleAuth, h]

/-- Claim C1 witness: a tampered Administrators-claiming token and a missing
cookie are both denied with 403 by both services. -/
theorem C1_fail_closed_witness :
    (authenticateRequest "managers" "report.pdf" none 0
      (.available managersDB) = ⟨403, "No JWT token"⟩) ∧
    (authenticateRequest "managers" "report.pdf" (some tamperedTok) 0
      (.available adminDB)).status = 403 ∧
    (mockHandleAuth "managers" "report.pdf" (some tamperedTok) 0).status = 403 :=
  ⟨(C1_fail_closed "managers" "report.pdf" tamperedTok 0 (.available managersDB)
      .invalidSignature).1,
   (C1_fail_closed "managers" "report.pdf" tamperedTok 0 (.available adminDB)
      .invalidSignature).2.1 rfl,
   (C1_fail_closed "managers" "report.pdf" tamperedTok 0 (.available adminDB)
      .invalidAlgorithm).2.2.2 rfl⟩

/-- Claim C2 counterexample: the inline-claims verifier does not accept
exactly one algorithm.  `mock-auth-service.js` calls `jwt.verify` with a
plain string secret and no `algorithms` option, so the library default
accepts the whole HMAC family: two well-formed member tokens declaring the
distinct algorithms HS256 and HS384, each with a MAC that verifies under
the shared secret, are both allowed. -/
theorem C2_counterexample :
    hsMemberTok.alg ≠ hs384Tok.alg ∧
    mockAuthService "/auth/managers/report.txt" (some hsMemberTok) 0 =
      ⟨200, "OK"⟩ ∧
    mockAuthService "/auth/managers/report.txt" (some hs384Tok) 0 =
      ⟨200, "OK"⟩ := by
  decide

/-- Claim C2 amended: each deployment mode confines the verifier to its
configured algorithm set — a single algorithm in the DB-backed mode, a
single algorithm family in the inline-claims mode.  The production service
denies (403, with the signature-failure body) every token declaring any
algorithm other than RS256, and the mock denies every token declaring an
algorithm outside the HMAC family HS256/HS384/HS512; in particular the
explicit `none` algorithm is denied in both modes. -/
theorem C2_algorithm_confinement (g a : String) (t : Token) (now : Nat)
    (db : Resolver) :
    (t.alg ≠ "RS256" →
      authenticateRequest g a (some t) now db = ⟨403, "Invalid JWT signature"⟩) ∧
    (hsDefaultAlgs.contains t.alg = false →
      mockHandleAuth g a (some t) now = ⟨403, "Invalid JWT"⟩) := by
  constructor
  · intro h
    have hc : (["RS256"].contains t.alg) = false := by
      simp [List.contains]
      exact fun heq => h heq
    by_cases hw : t.wellFormed
    · simp only [authenticateRequest, jwtVerify, hw, hc]
      simp [VerifyError.jsName]
    · simp only [authenticateRequest, jwtVerify, hw]
      simp [VerifyError.jsName]
  · intro h
    by_cases hw : t.wellFormed
    · simp only [mockHandleAuth, jwtVerify, hw, h]
      simp
    · simp only [mockHandleAuth, jwtVerify, hw]
      simp

/-- Claim C2 amended witness: a token declaring the explicit `none`
algorithm (with every other field benign and Administrators claimed
inline) is denied by both services. -/
theorem C2_algorithm_confinement_witness :
    authenticateRequest "managers" "report.pdf"
      (some ⟨true, "none", true, ⟨some 7, "a@b.c", ["Administrators"], some 3600⟩⟩)
      0 (.available adminDB) = ⟨403, "Invalid JWT signature"⟩ ∧
    mockHandleAuth "managers" "report.pdf"
      (some ⟨true, "none", true, ⟨some 7, "a@b.c", ["Administrators"], some 3600⟩⟩)
      0 = ⟨403, "Invalid JWT"⟩ :=
  ⟨(C2_algorithm_confinement "managers" "report.pdf"
      ⟨true, "none", true, ⟨some 7, "a@b.c", ["Administrators"], some 3600⟩⟩
      0 (.available adminDB)).1 (by decide),
   (C2_algorithm_confinement "managers" "report.pdf"
      ⟨true, "none", true, ⟨some 7, "a@b.c", ["Administrators"], some 3600⟩⟩
      0 (.available adminDB)).2 (by decide)⟩

/-- Helper: the production membership query returns a row whenever the
subject exists in `users` and holds a membership row for the required group
or for `Administrators`. -/
theorem queryGroupRows_ne_nil (s : DBState) (uid : Nat) (email g gm : String)
    (hu : (uid, email) ∈ s.users) (hm : (uid, gm) ∈ s.membership)
    (hg : gm = g ∨ gm = "Administrators") :
    queryGroupRows s uid g ≠ [] := by
  apply List.ne_nil_of_mem (a := (email, gm))
  unfold queryGroupRows
  rw [List.mem_flatMap]
  refine ⟨(uid, email), ?_, ?_⟩
  · rw [List.mem_filter]
    exact ⟨hu, by simp⟩
  · rw [List.mem_map]
    refine ⟨(uid, gm), ?_, rfl⟩
    rw [List.mem_filter]
    refine ⟨hm, ?_⟩
    rcases hg with hg | hg <;> simp [hg]

/-- Claim C3 (confirmed): privilege supersedes group.  Whatever group the
path requires, a verified subject is allowed (200 OK): in the production
service when the store holds an `Administrators` membership row for the
subject, and in the mock when the verified token's `groups` claim contains
`Administrators`. -/
theorem C3_admin_override (g a : String) (t : Token) (now : Nat) (s : DBState)
    (uid : Nat) (email : String) :
    (jwtVerify t ["RS256"] now = .ok t.payload → t.payload.id = some uid →
      uid ≠ 0 → (uid, email) ∈ s.users → (uid, "Administrators") ∈ s.membership →
      authenticateRequest g a (some t) now (.available s) = ⟨200, "OK"⟩) ∧
    (jwtVerify t hsDefaultAlgs now = .ok t.payload →
      "Administrators" ∈ t.payload.groups →
      mockHandleAuth g a (some t) now = ⟨200, "OK"⟩) := by
  constructor
  · intro hv hid h0 hu hm
    simp only [authenticateRequest, hv, hid]
    rw [if_neg h0]
    simp [queryGroupRows_ne_nil s uid email g "Administrators" hu hm (Or.inr rfl)]
  · intro hv hg
    simp only [mockHandleAuth, hv]
    have : t.payload.groups.contains "Administrators" = true :=
      List.elem_eq_true_of_mem hg
    simp [this]
    exact fun hn => absurd hg hn

/-- Claim C3 witness: the administrator of `adminDB` is allowed on the
`finance` path by the production service, and an inline Administrators
token is allowed on `finance` by the mock. -/
theorem C3_admin_override_witness :
    authenticateRequest "finance" "budget.xlsx"
      (some ⟨true, "RS256", true, ⟨some 7, "admin@test.com", [], some 3600⟩⟩)
      0 (.available adminDB) = ⟨200, "OK"⟩ ∧
    mockHandleAuth "finance" "budget.xlsx"
      (some ⟨true, "HS256", true, ⟨none, "admin@test.com", ["Administrators"], some 3600⟩⟩)
      0 = ⟨200, "OK"⟩ :=
  ⟨(C3_admin_override "finance" "budget.xlsx"
      ⟨true, "RS256", true, ⟨some 7, "admin@test.com", [], some 3600⟩⟩
      0 adminDB 7 "admin@test.com").1 rfl rfl (by decide) (by decide) (by decide),
   (C3_admin_override "finance" "budget.xlsx"
      ⟨true, "HS256", true, ⟨none, "admin@test.com", ["Administrators"], some 3600⟩⟩
      0 adminDB 7 "admin@test.com").2 rfl (by decide)⟩

/-- Claim C4 (confirmed): group matching is exact and case-sensitive.  A
verified subject whose whole membership is the single group `managers` (and
so not the override group) is denied both for required group `Managers`
and for required group `management`: by the production service against a
store holding exactly that membership row, and by the mock for a token
whose `groups` claim is exactly `["managers"]`. -/
theorem C4_exact_group_match (a : String) (t : Token) (now : Nat) (uid : Nat)
    (email : String) :
    (jwtVerify t ["RS256"] now = .ok t.payload → t.payload.id = some uid →
      uid ≠ 0 →
      authenticateRequest "Managers" a (some t) now
          (.available ⟨[(uid, email)], [(uid, "managers")]⟩) =
        ⟨403, "Not in group \"Managers\" or Administrators"⟩ ∧
      authenticateRequest "management" a (some t) now
          (.available ⟨[(uid, email)], [(uid, "managers")]⟩) =
        ⟨403, "Not in group \"management\" or Administrators"⟩) ∧
    (jwtVerify t hsDefaultAlgs now = .ok t.payload →
      t.payload.groups = ["managers"] →
      mockHandleAuth "Managers" a (some t) now = ⟨403, "Access denied"⟩ ∧
      mockHandleAuth "management" a (some t) now = ⟨403, "Access denied"⟩) := by
  constructor
  · intro hv hid h0
    constructor <;>
    · simp only [authenticateRequest, hv, hid]
      rw [if_neg h0]
      simp [queryGroupRows, queryUserRows]
  · intro hv hg
    constructor <;>
    · simp only [mockHandleAuth, hv, hg]
      decide

/-- Claim C4 witness: the `managers`-only member of `managersDB` is denied
for `Managers` and `management` by both services. -/
theorem C4_exact_group_match_witness :
    authenticateRequest "Managers" "report.pdf" (some memberTok) 0
        (.available ⟨[(7, "manager@test.com")], [(7, "managers")]⟩) =
      ⟨403, "Not in group \"Managers\" or Administrators"⟩ ∧
    authenticateRequest "management" "report.pdf" (some memberTok) 0
        (.available ⟨[(7, "manager@test.com")], [(7, "managers")]⟩) =
      ⟨403, "Not in group \"management\" or Administrators"⟩ ∧
    mockHandleAuth "Managers" "report.pdf" (some hsMemberTok) 0 =
      ⟨403, "Access denied"⟩ ∧
    mockHandleAuth "management" "report.pdf" (some hsMemberTok) 0 =
      ⟨403, "Access denied"⟩ :=
  ⟨((C4_exact_group_match "report.pdf" memberTok 0 7 "manager@test.com").1
      rfl rfl (by decide)).1,
   ((C4_exact_group_match "report.pdf" memberTok 0 7 "manager@test.com").1
      rfl rfl (by decide)).2,
   ((C4_exact_group_match "report.pdf" hsMemberTok 0 7 "manager@test.com").2
      rfl rfl).1,
   ((C4_exact_group_match "report.pdf" hsMemberTok 0 7 "manager@test.com").2
      rfl rfl).2⟩

/-- Claim C5 (confirmed): fail-closed on infrastructure failure.  When the
identity store is unavailable, a request whose credential verifies (with a
usable subject id) is answered 500 `Server error` — the catch-all branch,
the spec's SYSTEM_ERROR — whatever group is required and whatever the
token claims; and no request at all is allowed (status never 200). -/
theorem C5_resolver_fail_closed (g a : String) (t : Token) (c : Option Token)
    (now : Nat) :
    (jwtVerify t ["RS256"] now = .ok t.payload →
      (∃ uid, t.payload.id = some uid ∧ uid ≠ 0) →
      authenticateRequest g a (some t) now .unavailable =
        ⟨500, "Server error"⟩) ∧
    (authenticateRequest g a c now .unavailable).status ≠ 200 := by
  constructor
  · rintro hv ⟨uid, hid, h0⟩
    simp only [authenticateRequest, hv, hid]
    rw [if_neg h0]
  · cases c with
    | none => simp [authenticateRequest]
    | some u =>
      simp only [authenticateRequest]
      rcases hv : jwtVerify u ["RS256"] now with e | d
      · cases e <;> simp [VerifyError.jsName]
      · rcases hid : d.id with _ | uid
        · simp [hid]
        · by_cases h0 : uid = 0 <;> simp [hid, h0]

/-- Claim C5 witness: with the store down, the verified `managers` member —
who would be allowed if the store answered — gets 500 `Server error`. -/
theorem C5_resolver_fail_closed_witness :
    authenticateRequest "managers" "report.pdf" (some memberTok) 0
        .unavailable = ⟨500, "Server error"⟩ ∧
    (authenticateRequest "managers" "report.pdf" (some memberTok) 0
        .unavailable).status ≠ 200 :=
  ⟨(C5_resolver_fail_closed "managers" "report.pdf" memberTok (some memberTok) 0).1
      rfl ⟨7, rfl, by decide⟩,
   (C5_resolver_fail_closed "managers" "report.pdf" memberTok (some memberTok) 0).2⟩

/-- Claim C6 (confirmed): expiry is a distinct failure from signature
failure.  A well-formed RS256 token whose signature verifies but whose
`exp` has passed is denied 403 with body `JWT expired` (the
`TokenExpiredError` branch), while a well-formed RS256 token whose
signature does not verify is denied 403 with body `Invalid JWT signature`
(the `JsonWebTokenError` branch), and the two bodies differ. -/
theorem C6_expired_distinct (g a : String) (t u : Token) (now e : Nat)
    (db : Resolver)
    (hwf : t.wellFormed = true) (halg : t.alg = "RS256")
    (hsig : t.sigValid = true) (hexp : t.payload.exp = some e)
    (hle : e ≤ now)
    (huwf : u.wellFormed = true) (hualg : u.alg = "RS256")
    (husig : u.sigValid = false) :
    authenticateRequest g a (some t) now db = ⟨403, "JWT expired"⟩ ∧
    authenticateRequest g a (some u) now db = ⟨403, "Invalid JWT signature"⟩ ∧
    ("JWT expired" : String) ≠ "Invalid JWT signature" := by
  refine ⟨?_, ?_, by decide⟩
  · have hv : jwtVerify t ["RS256"] now = .error .expired := by
      simp [jwtVerify, hwf, halg, hsig, isExpired, hexp, hle]
    simp only [authenticateRequest, hv]
    simp [VerifyError.jsName]
  · have hv : jwtVerify u ["RS256"] now = .error .invalidSignature := by
      simp [jwtVerify, huwf, hualg, husig]
    simp only [authenticateRequest, hv]
    simp [VerifyError.jsName]

/-- Claim C6 witness: at time 4000 the member token (exp 3600) gets
`JWT expired` while the tampered token gets `Invalid JWT signature`. -/
theorem C6_expired_distinct_witness :
    authenticateRequest "managers" "report.pdf" (some memberTok) 4000
        (.available managersDB) = ⟨403, "JWT expired"⟩ ∧
    authenticateRequest "managers" "report.pdf" (some tamperedTok) 4000
        (.available managersDB) = ⟨403, "Invalid JWT signature"⟩ :=
  ⟨(C6_expired_distinct "managers" "report.pdf" memberTok tamperedTok 4000 3600
      (.available managersDB) rfl rfl rfl rfl (by decide) rfl rfl rfl).1,
   (C6_expired_distinct "managers" "report.pdf" memberTok tamperedTok 4000 3600
      (.available managersDB) rfl rfl rfl rfl (by decide) rfl rfl rfl).2.1⟩

/-- Claim C7 counterexample: the service performs no dot-segment
validation.  The path `/auth/managers/..` contains a `..` segment, yet it
matches the file route (group `managers`, asset `..`) and a verified
`managers` member is ALLOWED (200 OK) — not denied as the claim
requires. -/
theorem C7_counterexample :
    ".." ∈ pathSegs "/auth/managers/.." ∧
    assetAuthService "/auth/managers/.." (some memberTok) 0
      (.available managersDB) = ⟨200, "OK"⟩ := by
  decide

/-- Claim C7 amended: the service has no INVALID_PATH validation at all.
A traversal path with extra segments such as `/auth/secure/../etc/passwd`,
or one with an empty group segment, is rejected only because it matches no
Express route (HTTP 404, Express's default page, not a 403 denial); an
empty asset path is not rejected either — it matches the directory route
`/auth/:groupName` and is authorized normally — and a `.` or `..` that
fits a single route parameter is treated as an ordinary value, so a
verified member's request whose asset segment is `..`, like the member's
directory request, is allowed. -/
theorem C7_no_path_validation (c : Option Token) (now : Nat) (db : Resolver)
    (t : Token) (s : DBState) (uid : Nat) (email : String) :
    assetAuthService "/auth/secure/../etc/passwd" c now db =
      ⟨404, "Cannot GET /auth/secure/../etc/passwd"⟩ ∧
    assetAuthService "/auth//x" c now db = ⟨404, "Cannot GET /auth//x"⟩ ∧
    (jwtVerify t ["RS256"] now = .ok t.payload → t.payload.id = some uid →
      uid ≠ 0 → (uid, email) ∈ s.users → (uid, "managers") ∈ s.membership →
      assetAuthService "/auth/managers/.." (some t) now (.available s) =
        ⟨200, "OK"⟩ ∧
      assetAuthService "/auth/managers/" (some t) now (.available s) =
        ⟨200, "OK"⟩) := by
  refine ⟨?_, ?_, ?_⟩
  · have hr : routeMatch "/auth/secure/../etc/passwd" = none := by decide
    simp only [assetAuthService, hr]
    rfl
  · have hr : routeMatch "/auth//x" = none := by decide
    simp only [assetAuthService, hr]
    rfl
  · intro hv hid h0 hu hm
    constructor
    · have hr : routeMatch "/auth/managers/.." = some ("managers", "..") := by
        decide
      simp only [assetAuthService, hr, authenticateRequest, hv, hid]
      rw [if_neg h0]
      simp [queryGroupRows_ne_nil s uid email "managers" "managers" hu hm
        (Or.inl rfl)]
    · have hr : routeMatch "/auth/managers/" = some ("managers", "") := by
        decide
      simp only [assetAuthService, hr, authenticateRequest, hv, hid]
      rw [if_neg h0]
      simp [queryGroupRows_ne_nil s uid email "managers" "managers" hu hm
        (Or.inl rfl)]

/-- Claim C7 amended witness: the traversal path is 404 for the member's
credential, while the member's `/auth/managers/..` request and the
member's empty-asset directory request `/auth/managers/` are both
allowed. -/
theorem C7_no_path_validation_witness :
    assetAuthService "/auth/secure/../etc/passwd" (some memberTok) 0
      (.available managersDB) = ⟨404, "Cannot GET /auth/secure/../etc/passwd"⟩ ∧
    assetAuthService "/auth/managers/.." (some memberTok) 0
      (.available managersDB) = ⟨200, "OK"⟩ ∧
    assetAuthService "/auth/managers/" (some memberTok) 0
      (.available managersDB) = ⟨200, "OK"⟩ :=
  ⟨(C7_no_path_validation (some memberTok) 0 (.available managersDB) memberTok
      managersDB 7 "manager@test.com").1,
   ((C7_no_path_validation (some memberTok) 0 (.available managersDB) memberTok
      managersDB 7 "manager@test.com").2.2 rfl rfl (by decide) (by decide)
      (by decide)).1,
   ((C7_no_path_validation (some memberTok) 0 (.available managersDB) memberTok
      managersDB 7 "manager@test.com").2.2 rfl rfl (by decide) (by decide)
      (by decide)).2⟩

/-- Claim C8 (code bug): the mock's regex route does split a nested path
into first segment = group and the whole remainder = asset path, handling
it (a verified `dev` member is allowed on
`/auth/dev/project1/diagram.png`); but the production Express routes match
only single-segment asset paths, so the same nested request gets 404 from
the production service whatever the credential and store — contradicting
the repository's own README (nested folders supported) and the nginx
configuration that forwards nested asset paths to these routes. -/
theorem C8_nested_path_mismatch (c : Option Token) (now : Nat)
    (db : Resolver) :
    mockRouteMatch "/auth/dev/project1/diagram.png" =
      some ("dev", "project1/diagram.png") ∧
    mockAuthService "/auth/dev/project1/diagram.png" (some nestedDevTok) 0 =
      ⟨200, "OK"⟩ ∧
    routeMatch "/auth/dev/project1/diagram.png" = none ∧
    (assetAuthService "/auth/dev/project1/diagram.png" c now db).status =
      404 := by
  refine ⟨by decide, by decide, by decide, ?_⟩
  have hr : routeMatch "/auth/dev/project1/diagram.png" = none := by decide
  simp only [assetAuthService, hr]

/-- Claim C9 (confirmed): no denial-reason leakage at the client boundary.
The nginx edge renders every 403 decision of the auth service — whatever
the internal reason and its server-side body — as the one fixed denial
page, so any two denied requests produce identical client-visible bodies. -/
theorem C9_uniform_denial_body (p₁ p₂ : String) (c₁ c₂ : Option Token)
    (n₁ n₂ : Nat) (d₁ d₂ : Resolver) (f₁ f₂ : String)
    (h₁ : (assetAuthService p₁ c₁ n₁ d₁).status = 403)
    (h₂ : (assetAuthService p₂ c₂ n₂ d₂).status = 403) :
    (nginxServe (assetAuthService p₁ c₁ n₁ d₁).status f₁).body =
      edgeDenialBody ∧
    (nginxServe (assetAuthService p₁ c₁ n₁ d₁).status f₁).body =
      (nginxServe (assetAuthService p₂ c₂ n₂ d₂).status f₂).body := by
  rw [h₁, h₂]
  exact ⟨rfl, rfl⟩

/-- Claim C9 witness: a no-credential denial and a wrong-group denial (for
a verified member of another group) — whose service-side bodies differ —
render as the same client-visible body. -/
theorem C9_uniform_denial_body_witness :
    (nginxServe (assetAuthService "/auth/managers/report.pdf" none 0
        (.available managersDB)).status "file-a").body =
      (nginxServe (assetAuthService "/auth/finance/budget.xlsx"
        (some memberTok) 0 (.available managersDB)).status "file-b").body :=
  (C9_uniform_denial_body "/auth/managers/report.pdf" "/auth/finance/budget.xlsx"
    none (some memberTok) 0 0 (.available managersDB) (.available managersDB)
    "file-a" "file-b" (by decide) (by decide)).2

/-- Claim C10 (confirmed): the decision is independent of the asset path.
For a fixed credential, clock and identity store, two requests that match
a route with the same group name and any asset paths receive the same
response — the asset path parameter is only logged, never used in
verification or membership checks. -/
theorem C10_asset_path_independent (p₁ p₂ g a₁ a₂ : String) (c : Option Token)
    (now : Nat) (db : Resolver)
    (h₁ : routeMatch p₁ = some (g, a₁)) (h₂ : routeMatch p₂ = some (g, a₂)) :
    assetAuthService p₁ c now db = assetAuthService p₂ c now db := by
  simp only [assetAuthService, h₁, h₂]
  rfl

/-- Claim C10 witness: two `managers` requests differing only in asset path
get the same response. -/
theorem C10_asset_path_independent_witness :
    assetAuthService "/auth/managers/report.pdf" (some memberTok) 0
        (.available managersDB) =
      assetAuthService "/auth/managers/project1" (some memberTok) 0
        (.available managersDB) :=
  C10_asset_path_independent "/auth/managers/report.pdf"
    "/auth/managers/project1" "managers" "report.pdf" "project1"
    (some memberTok) 0 (.available managersDB) (by decide) (by decide)

end WikiSecureAssets
